import Mathlib

/-!
Verification of the Feature Scoring Service of the Breast-cancer app
(`src/app.py`).  The three functions under scrutiny are `load_data`
(app.py:325), `predict_cancer_risk` (app.py:376) and
`validate_input_range` (app.py:409).  Numeric values are modelled as
rationals; the trained classifier is modelled as an opaque pair of pure
functions (its `predict` and `predict_proba` capabilities restricted to a
single sample); the deserialized pickle blobs are modelled by small
inductive types distinguishing the shapes the Python `isinstance` checks
can tell apart.
-/

/-- A trained classifier, reduced to the two capabilities
`predict_cancer_risk` uses: `model.predict(X)[0]` and
`model.predict_proba(X)[0]` on the single sample obtained from
`np.array(features).reshape(1, -1)`. -/
structure Classifier where
  predict : List ℚ → ℤ
  predict_proba : List ℚ → List ℚ

/-- The deserialized model blob: either an actual `RandomForestClassifier`
or some other Python object (`isinstance` fails). -/
inductive ModelBlob where
  | rfc : Classifier → ModelBlob
  | notRFC : ModelBlob

/-- The deserialized feature-names blob: either a Python list of strings
or some other object (`isinstance(feature_names, list)` fails). -/
inductive NamesBlob where
  | list : List String → NamesBlob
  | notList : NamesBlob

/-- A value stored in the feature-ranges dict: either a proper 2-tuple of
numeric bounds, or something that cannot be unpacked as
`min_val, max_val`. -/
inductive RangeEntry where
  | pair : ℚ → ℚ → RangeEntry
  | notPair : RangeEntry

/-- The deserialized feature-ranges blob: either a Python dict (modelled
as an association list with distinct keys left implicit) or some other
object (`isinstance(feature_ranges, dict)` fails). -/
inductive RangesBlob where
  | dict : List (String × RangeEntry) → RangesBlob
  | notDict : RangesBlob

/-- The validation tail of `load_data` (app.py:350-360), after the three
pickle blobs have deserialized: `isinstance` check on the model, then
`not isinstance(feature_names, list) or not feature_names`, then
`not isinstance(feature_ranges, dict) or not feature_ranges`; on success
the triple is returned unchanged.  The raised `ValueError` messages are
the strings of the source. -/
def load_data (model : ModelBlob) (feature_names : NamesBlob)
    (feature_ranges : RangesBlob) :
    Except String (Classifier × List String × List (String × RangeEntry)) :=
  match model with
  | ModelBlob.notRFC => Except.error "Loaded model is not a RandomForestClassifier"
  | ModelBlob.rfc m =>
    match feature_names with
    | NamesBlob.notList => Except.error "Invalid or empty feature names"
    | NamesBlob.list [] => Except.error "Invalid or empty feature names"
    | NamesBlob.list (n :: ns) =>
      match feature_ranges with
      | RangesBlob.notDict => Except.error "Invalid or empty feature ranges"
      | RangesBlob.dict [] => Except.error "Invalid or empty feature ranges"
      | RangesBlob.dict (r :: rs) => Except.ok (m, n :: ns, r :: rs)

/-- The error `predict_cancer_risk` raises (a `ValueError` with message
"Number of features doesn t match model requirements"). -/
inductive PredictionError where
  | featureCountMismatch : PredictionError
deriving DecidableEq

/-- `predict_cancer_risk` (app.py:376-403): check
`len(features) != len(feature_names)` and raise on mismatch, otherwise
reshape the flat vector into the single sample and return
`(model.predict(X)[0], model.predict_proba(X)[0])`. -/
def predict_cancer_risk (model : Classifier) (features : List ℚ)
    (feature_names : List String) : Except PredictionError (ℤ × List ℚ) :=
  if features.length ≠ feature_names.length then
    Except.error PredictionError.featureCountMismatch
  else
    Except.ok (model.predict features, model.predict_proba features)

/-- Membership / indexing of the Python dict `feature_ranges`, modelled on
an association list with well-formed (unpackable) 2-tuple values. -/
def lookupRange (feature_ranges : List (String × ℚ × ℚ)) (feature_name : String) :
    Option (ℚ × ℚ) :=
  match feature_ranges with
  | [] => none
  | (k, r) :: rest =>
    if k = feature_name then some r else lookupRange rest feature_name

/-- `validate_input_range` (app.py:409-425): `True` when
`feature_name not in feature_ranges`, otherwise
`min_val <= value <= max_val`. -/
def validate_input_range (value : ℚ) (feature_name : String)
    (feature_ranges : List (String × ℚ × ℚ)) : Bool :=
  match lookupRange feature_ranges feature_name with
  | none => true
  | some (min_val, max_val) => decide (min_val ≤ value ∧ value ≤ max_val)

/-- A deterministic stub classifier: always label 1 with probabilities
(0.2, 0.8), as in Scenario 5 of the spec. -/
def cStub : Classifier where
  predict := fun _ => 1
  predict_proba := fun _ => [0.2, 0.8]

/-- Claim C2: for every feature name with no entry in `feature_ranges`
and every numeric value, `validate_input_range` returns `true`; only
names with an entry are checked against bounds. -/
theorem validator_unknown_feature_always_in_range
    (value : ℚ) (feature_name : String)
    (feature_ranges : List (String × ℚ × ℚ))
    (h : lookupRange feature_ranges feature_name = none) :
    validate_input_range value feature_name feature_ranges = true := by
  unfold validate_input_range
  rw [h]

/-- Witness for C2: the concrete Scenario 1 artifact, feature "b" absent
from the range map, extreme value 999 nevertheless reported in range. -/
theorem validator_unknown_feature_always_in_range_witness :
    validate_input_range 999 "b" [("a", (0, 10))] = true :=
  validator_unknown_feature_always_in_range 999 "b" [("a", (0, 10))] rfl

/-- Claim C3: range bounds are inclusive: when `feature_ranges` maps the
name to `(min_val, max_val)`, `validate_input_range` returns `true`
exactly when `min_val ≤ value ∧ value ≤ max_val`; in particular values
equal to either bound are in range, and values strictly outside are
not. -/
theorem validator_bounds_inclusive
    (value : ℚ) (feature_name : String)
    (feature_ranges : List (String × ℚ × ℚ)) (min_val max_val : ℚ)
    (h : lookupRange feature_ranges feature_name = some (min_val, max_val)) :
    validate_input_range value feature_name feature_ranges = true ↔
      min_val ≤ value ∧ value ≤ max_val := by
  unfold validate_input_range
  rw [h]
  exact decide_eq_true_iff

/-- Witness for C3: value 10 exactly at the stored max of the range
`(0, 10)` for feature "a" is classified in range. -/
theorem validator_bounds_inclusive_witness :
    validate_input_range 10 "a" [("a", (0, 10))] = true :=
  (validator_bounds_inclusive 10 "a" [("a", (0, 10))] 0 10 rfl).mpr
    (by norm_num)

/-- Claim C10: a range entry `(min_val, max_val)` with `min_val > max_val`
is a shape `load_data` accepts (it only checks that `feature_ranges` is a
non-empty dict), and `validate_input_range` then returns `false` for
every value of that feature: it can never be in range. -/
theorem inverted_range_never_in_range
    (value : ℚ) (feature_name : String)
    (feature_ranges : List (String × ℚ × ℚ)) (min_val max_val : ℚ)
    (h : lookupRange feature_ranges feature_name = some (min_val, max_val))
    (hlt : max_val < min_val) (m : Classifier) (n : String) (ns : List String) :
    validate_input_range value feature_name feature_ranges = false ∧
    load_data (ModelBlob.rfc m) (NamesBlob.list (n :: ns))
        (RangesBlob.dict [(feature_name, RangeEntry.pair min_val max_val)]) =
      Except.ok (m, n :: ns, [(feature_name, RangeEntry.pair min_val max_val)]) := by
  constructor
  · unfold validate_input_range
    rw [h]
    simp only [decide_eq_false_iff_not]
    rintro ⟨h1, h2⟩
    exact absurd (le_trans h1 h2) (not_le.mpr hlt)
  · rfl

/-- Witness for C10: the loader accepts the inverted range `(10, 0)` for
feature "a", and the validator rejects the value 5 for it. -/
theorem inverted_range_never_in_range_witness :
    validate_input_range 5 "a" [("a", (10, 0))] = false ∧
    load_data (ModelBlob.rfc cStub) (NamesBlob.list ["a"])
        (RangesBlob.dict [("a", RangeEntry.pair 10 0)]) =
      Except.ok (cStub, ["a"], [("a", RangeEntry.pair 10 0)]) :=
  inverted_range_never_in_range 5 "a" [("a", (10, 0))] 10 0 rfl
    (by norm_num) cStub "a" []

/-- Counterexample to claim C1: the claim says that for a wrong-length
vector the Feature Vector Validator fails with a count mismatch, but
`validate_input_range` — the validator of the source — checks one value
against one range and has no arity check at all: given the artifact
`feature_names = ["a", "b"]` and the length-1 vector `[5]`, validating
its only supplied value returns `true` (no failure of any kind), while
only the Scorer rejects the vector. -/
theorem validator_has_no_arity_check_counterexample :
    validate_input_range 5 "a" [("a", (0, 10)), ("b", (0, 10))] = true ∧
    predict_cancer_risk cStub [5] ["a", "b"] =
      Except.error PredictionError.featureCountMismatch := by
  constructor <;> rfl

/-- Claim C1 (amended): only the Scorer checks arity: for every feature
vector whose length differs from `feature_names`, `predict_cancer_risk`
raises the count-mismatch `ValueError`, never truncating or padding;
`validate_input_range` validates a single value and performs no arity
check. -/
theorem scorer_rejects_arity_mismatch (model : Classifier)
    (features : List ℚ) (feature_names : List String)
    (h : features.length ≠ feature_names.length) :
    predict_cancer_risk model features feature_names =
      Except.error PredictionError.featureCountMismatch := by
  unfold predict_cancer_risk
  simp [h]

/-- Witness for C1 (amended): Scenario 3, a length-1 vector against two
feature names. -/
theorem scorer_rejects_arity_mismatch_witness :
    predict_cancer_risk cStub [5] ["a", "b"] =
      Except.error PredictionError.featureCountMismatch :=
  scorer_rejects_arity_mismatch cStub [5] ["a", "b"] (by decide)

/-- Claim C9: the Scorer passes the classifier output through unchanged:
for every classifier and arity-matching vector, `predict_cancer_risk`
returns exactly the classifier prediction and class-probability vector
for the single reshaped sample. -/
theorem scorer_passes_classifier_output_through (model : Classifier)
    (features : List ℚ) (feature_names : List String)
    (h : features.length = feature_names.length) :
    predict_cancer_risk model features feature_names =
      Except.ok (model.predict features, model.predict_proba features) := by
  unfold predict_cancer_risk
  simp [h]

/-- Witness for C9: Scenario 5, the stub classifier on `[4.2, 7.8]`
yields exactly `(1, (0.2, 0.8))`. -/
theorem scorer_passes_classifier_output_through_witness :
    predict_cancer_risk cStub [4.2, 7.8] ["a", "b"] =
      Except.ok (1, [0.2, 0.8]) :=
  scorer_passes_classifier_output_through cStub [4.2, 7.8] ["a", "b"] rfl

/-- Claim C4: for every vector passing validation (in particular of
matching arity), when the classifier meets its two-class probabilistic
contract the Scorer returns a label in {0, 1} and a probability pair
lying in [0, 1] and summing to 1 (exactly, in exact rational
arithmetic, hence within any floating-point tolerance). -/
theorem scorer_returns_probability_distribution (model : Classifier)
    (features : List ℚ) (feature_names : List String)
    (harity : features.length = feature_names.length)
    (hlabel : model.predict features = 0 ∨ model.predict features = 1)
    (hlen : (model.predict_proba features).length = 2)
    (hsum : (model.predict_proba features).sum = 1)
    (hmem : ∀ p ∈ model.predict_proba features, 0 ≤ p ∧ p ≤ 1) :
    ∃ label probs,
      predict_cancer_risk model features feature_names =
        Except.ok (label, probs) ∧
      (label = 0 ∨ label = 1) ∧ probs.length = 2 ∧ probs.sum = 1 ∧
      ∀ p ∈ probs, 0 ≤ p ∧ p ≤ 1 := by
  refine ⟨model.predict features, model.predict_proba features, ?_,
    hlabel, hlen, hsum, hmem⟩
  unfold predict_cancer_risk
  simp [harity]

/-- Witness for C4: the stub classifier on the validated vector
`[4.2, 7.8]`. -/
theorem scorer_returns_probability_distribution_witness :
    ∃ label probs,
      predict_cancer_risk cStub [4.2, 7.8] ["a", "b"] =
        Except.ok (label, probs) ∧
      (label = 0 ∨ label = 1) ∧ probs.length = 2 ∧ probs.sum = 1 ∧
      ∀ p ∈ probs, 0 ≤ p ∧ p ≤ 1 :=
  scorer_returns_probability_distribution cStub [4.2, 7.8] ["a", "b"] rfl
    (Or.inr rfl) rfl (by norm_num [cStub, List.sum_cons, List.sum_nil])
    (by simp only [cStub, List.forall_mem_cons, List.forall_mem_nil]
        norm_num)

/-- Claim C8: scoring is idempotent / deterministic: the result of
`predict_cancer_risk` is fully determined by the feature vector, the
feature names and the classifier responses on that vector, so two
invocations with an identical vector against classifier states agreeing
on it yield identical results. -/
theorem scorer_deterministic (m m2 : Classifier) (features : List ℚ)
    (feature_names : List String)
    (hp : m.predict features = m2.predict features)
    (hq : m.predict_proba features = m2.predict_proba features) :
    predict_cancer_risk m features feature_names =
      predict_cancer_risk m2 features feature_names := by
  unfold predict_cancer_risk
  rw [hp, hq]

/-- A second stub classifier, agreeing with `cStub` on two-feature
samples but not elsewhere. -/
def cStub2 : Classifier where
  predict := fun xs => if xs.length = 2 then 1 else 0
  predict_proba := fun xs => if xs.length = 2 then [0.2, 0.8] else []

/-- Witness for C8: two classifier states agreeing on `[4.2, 7.8]` give
the same prediction result there. -/
theorem scorer_deterministic_witness :
    predict_cancer_risk cStub [4.2, 7.8] ["a", "b"] =
      predict_cancer_risk cStub2 [4.2, 7.8] ["a", "b"] :=
  scorer_deterministic cStub cStub2 [4.2, 7.8] ["a", "b"] rfl rfl

/-- Claim C5: when the deserialized feature-name list is empty or not a
list, `load_data` raises a `ValueError` and, in general, a successfully
loaded artifact never has an empty feature-name list. -/
theorem loader_rejects_empty_or_nonlist_names (model : ModelBlob)
    (ranges : RangesBlob) (names : NamesBlob)
    (h : names = NamesBlob.notList ∨ names = NamesBlob.list []) :
    (∃ e, load_data model names ranges = Except.error e) ∧
    ∀ model2 names2 ranges2 c ns rs,
      load_data model2 names2 ranges2 = Except.ok (c, ns, rs) → ns ≠ [] := by
  constructor
  · cases model with
    | notRFC => exact ⟨_, rfl⟩
    | rfc m =>
      rcases h with h | h <;> subst h
      · exact ⟨_, rfl⟩
      · exact ⟨_, rfl⟩
  · intro model2 names2 ranges2 c ns rs hok hns
    subst hns
    cases model2 with
    | notRFC => simp [load_data] at hok
    | rfc m2 =>
      cases names2 with
      | notList => simp [load_data] at hok
      | list l =>
        cases l with
        | nil => simp [load_data] at hok
        | cons n ns2 =>
          cases ranges2 with
          | notDict => simp [load_data] at hok
          | dict rl =>
            cases rl with
            | nil => simp [load_data] at hok
            | cons r rs2 => simp [load_data] at hok

/-- Witness for C5: an empty feature-name list next to otherwise valid
blobs is rejected. -/
theorem loader_rejects_empty_or_nonlist_names_witness :
    (∃ e, load_data (ModelBlob.rfc cStub) (NamesBlob.list [])
        (RangesBlob.dict [("a", RangeEntry.pair 0 1)]) = Except.error e) ∧
    ∀ model2 names2 ranges2 c ns rs,
      load_data model2 names2 ranges2 = Except.ok (c, ns, rs) → ns ≠ [] :=
  loader_rejects_empty_or_nonlist_names (ModelBlob.rfc cStub)
    (RangesBlob.dict [("a", RangeEntry.pair 0 1)]) (NamesBlob.list [])
    (Or.inr rfl)

/-- Counterexample to claim C6: `load_data` does not check uniqueness of
the feature names: the duplicated list `["a", "a"]` is accepted and the
artifact is returned, where the claim says loading must fail. -/
theorem loader_accepts_duplicate_names_counterexample :
    load_data (ModelBlob.rfc cStub) (NamesBlob.list ["a", "a"])
      (RangesBlob.dict [("a", RangeEntry.pair 0 1)]) =
      Except.ok (cStub, ["a", "a"], [("a", RangeEntry.pair 0 1)]) := rfl

/-- Claim C6 (amended): `load_data` checks only that `feature_names` is a
non-empty list; it performs no uniqueness check, so every non-empty list
with a duplicated entry still loads successfully. -/
theorem loader_no_uniqueness_check (m : Classifier) (a : String)
    (ns : List String) (r : String × RangeEntry)
    (rs : List (String × RangeEntry)) :
    load_data (ModelBlob.rfc m) (NamesBlob.list (a :: a :: ns))
      (RangesBlob.dict (r :: rs)) =
      Except.ok (m, a :: a :: ns, r :: rs) := rfl

/-- Counterexample to claim C7: `load_data` does not validate the range
entries: the inverted range `(5, 1)` (min > max) is accepted and the
artifact is returned, where the claim says loading must fail. -/
theorem loader_accepts_inverted_range_counterexample :
    load_data (ModelBlob.rfc cStub) (NamesBlob.list ["a"])
      (RangesBlob.dict [("a", RangeEntry.pair 5 1)]) =
      Except.ok (cStub, ["a"], [("a", RangeEntry.pair 5 1)]) := rfl

/-- Claim C7 (amended): `load_data` checks only that `feature_ranges` is
a non-empty dict; its entries are not validated, so a dict whose first
entry has min > max, or is not a 2-tuple at all, still loads
successfully. -/
theorem loader_no_range_entry_validation (m : Classifier) (n : String)
    (ns : List String) (k : String) (min_val max_val : ℚ)
    (rs : List (String × RangeEntry)) (hlt : max_val < min_val) :
    load_data (ModelBlob.rfc m) (NamesBlob.list (n :: ns))
        (RangesBlob.dict ((k, RangeEntry.pair min_val max_val) :: rs)) =
      Except.ok (m, n :: ns, (k, RangeEntry.pair min_val max_val) :: rs) ∧
    load_data (ModelBlob.rfc m) (NamesBlob.list (n :: ns))
        (RangesBlob.dict ((k, RangeEntry.notPair) :: rs)) =
      Except.ok (m, n :: ns, (k, RangeEntry.notPair) :: rs) :=
  ⟨rfl, rfl⟩

/-- Witness for C7 (amended): the inverted range `(7, 2)` and a
non-2-tuple entry both load. -/
theorem loader_no_range_entry_validation_witness :
    load_data (ModelBlob.rfc cStub) (NamesBlob.list ["b"])
        (RangesBlob.dict [("b", RangeEntry.pair 7 2)]) =
      Except.ok (cStub, ["b"], [("b", RangeEntry.pair 7 2)]) ∧
    load_data (ModelBlob.rfc cStub) (NamesBlob.list ["b"])
        (RangesBlob.dict [("b", RangeEntry.notPair)]) =
      Except.ok (cStub, ["b"], [("b", RangeEntry.notPair)]) :=
  loader_no_range_entry_validation cStub "b" [] "b" 7 2 [] (by norm_num)
